import Mathlib

/-!
# Jobs-API: verified model of the jobs controller and error normalizer

Shallow embedding of the MosesAwad/Jobs-API Express + Mongoose application:

* `JSError` and `errorHandlerMiddleware` embed
  src/middleware/error-handler.js (the error normalizer);
* `Job`, `JobBody`, `validateCreate`, `validateUpdate` embed the Mongoose
  `JobSchema` of src/models/Job.js and its create/update validation;
* `getAllJobs`, `getJob`, `createJob`, `updateJob`, `deleteJob` embed the
  controllers of src/controllers/jobs.js, with the jobs collection modelled
  as a `List Job` threaded explicitly.

Object ids and user ids are modelled as `Nat`; `createdAt` timestamps as
`Nat`.  Stringly-typed fields stay `String` (the `status` enum is a runtime
check in Mongoose, not a type).
-/

namespace JobsAPI

/-! ## HTTP status codes (the `http-status-codes` constants used) -/

def StatusCodes.OK : Nat := 200

def StatusCodes.BAD_REQUEST : Nat := 400

def StatusCodes.NOT_FOUND : Nat := 404

def StatusCodes.INTERNAL_SERVER_ERROR : Nat := 500

/-! ## Error objects as observed by the error normalizer -/

/-- The shape of a thrown JavaScript error as observed by
`errorHandlerMiddleware` (src/middleware/error-handler.js): these are exactly
the properties the middleware reads.  `keyValue` models
`Object.keys(err.keyValue)` (the conflicting field names of a duplicate-key
error); `errors` models `Object.values(err.errors).map(s => s.message)` (the
field-level messages of a Mongoose ValidationError); `value` models
`err.value` (the uncastable value of a CastError).  Absent properties are
`none` / `[]` / `""`. -/
structure JSError where
  statusCode : Option Nat := none
  message : Option String := none
  code : Option Nat := none
  keyValue : List String := []
  name : Option String := none
  errors : List String := []
  value : String := ""
deriving DecidableEq, Repr

/-- The fallback message of the normalizer:
`'Something went wrong, please try again later'`. -/
def genericMsg : String := "Something went wrong, please try again later"

/-- `err.statusCode || StatusCodes.INTERNAL_SERVER_ERROR`: JavaScript `||`
falls through on the falsy values `undefined` and `0`. -/
def defaultStatusCode (err : JSError) : Nat :=
  match err.statusCode with
  | some c => if c = 0 then StatusCodes.INTERNAL_SERVER_ERROR else c
  | none => StatusCodes.INTERNAL_SERVER_ERROR

/-- `err.message || 'Something went wrong, please try again later'`:
JavaScript `||` falls through on the falsy values `undefined` and `""`. -/
def defaultMsg (err : JSError) : String :=
  match err.message with
  | some m => if m = "" then genericMsg else m
  | none => genericMsg

/-- Message of the duplicate-key branch; `${Object.keys(err.keyValue)}`
stringifies a JavaScript array by joining with `,`. -/
def dupMsg (err : JSError) : String :=
  "Duplicate value entered for the " ++ String.intercalate "," err.keyValue
    ++ " field. Please choose another value"

/-- Message of the validation branch:
`Object.values(err.errors).map(s => s.message).join(', ')` after the fixed
prefix. -/
def validationMsg (err : JSError) : String :=
  "Validation failed for user creation due to the following reasons: "
    ++ String.intercalate ", " err.errors

/-- Message of the cast branch: names the uncastable `err.value`. -/
def castMsg (err : JSError) : String :=
  "No job found with an id of " ++ err.value

/-- The HTTP failure response the normalizer emits:
`res.status(customError.statusCode).json({ msg: customError.msg })`. -/
structure ErrorResponse where
  statusCode : Nat
  msg : String
deriving DecidableEq, Repr

/-- src/middleware/error-handler.js: start from
`{err.statusCode || 500, err.message || generic}`, then three sequential
`if`s each overwrite `customError` — duplicate key (`err.code === 11000`),
then `err.name === 'ValidationError'`, then `err.name === 'CastError'`. -/
def errorHandlerMiddleware (err : JSError) : ErrorResponse :=
  let customError0 : ErrorResponse := ⟨defaultStatusCode err, defaultMsg err⟩
  let customError1 : ErrorResponse :=
    if err.code = some 11000 then ⟨StatusCodes.BAD_REQUEST, dupMsg err⟩
    else customError0
  let customError2 : ErrorResponse :=
    if err.name = some "ValidationError" then ⟨StatusCodes.BAD_REQUEST, validationMsg err⟩
    else customError1
  if err.name = some "CastError" then ⟨StatusCodes.NOT_FOUND, castMsg err⟩
  else customError2

/-! ## Domain error classes -/

/-- Modelled from the spec: the repository's `errors` module
(`CustomAPIError` and its subclasses `NotFoundError`, `BadRequestError`,
`UnauthenticatedError`) is not under src/ — only its call sites are.  Per
spec sections 4.3/7, each explicitly-raised domain error carries its own
status (`NotFound` 404, `BadRequest` 400, `Unauthenticated` 401) and the
message given at the raise site; as a plain `Error` subclass it has `name`
`"Error"` and none of the Mongo-specific properties. -/
def NotFoundError (m : String) : JSError :=
  { statusCode := some StatusCodes.NOT_FOUND, message := some m, name := some "Error" }

/-- Modelled from the spec: see `NotFoundError`. -/
def BadRequestError (m : String) : JSError :=
  { statusCode := some StatusCodes.BAD_REQUEST, message := some m, name := some "Error" }

/-- Modelled from the spec: see `NotFoundError`.  401 per spec section 7. -/
def UnauthenticatedError (m : String) : JSError :=
  { statusCode := some 401, message := some m, name := some "Error" }

/-! ## The Job model (src/models/Job.js) -/

/-- The `status` enum of `JobSchema`. -/
def statusEnumValues : List String := ["interview", "pending", "declined"]

/-- A persisted job document.  Fields of `JobSchema` plus the
`timestamps: true` field `createdAt` (`updatedAt` is never read by the
controllers and is omitted). -/
structure Job where
  _id : Nat
  role : String
  company : String
  status : String
  createdBy : Nat
  createdAt : Nat
deriving DecidableEq, Repr

/-- A request body (`req.body`) for create/update: any subset of the schema
paths may be supplied by the client. -/
structure JobBody where
  role : Option String := none
  company : Option String := none
  status : Option String := none
  createdBy : Option Nat := none
deriving DecidableEq, Repr

/-- `required: [true, 'Please provide a role']` message. -/
def roleRequiredMsg : String := "Please provide a role"

/-- `required: [true, 'Please enter a company name']` message. -/
def companyRequiredMsg : String := "Please enter a company name"

/-- `required: [true, 'Please provide a user']` message. -/
def createdByRequiredMsg : String := "Please provide a user"

/-- Mongoose's default maxlength violation message for a String path. -/
def maxLengthMsg (path : String) (v : String) (n : Nat) : String :=
  "Path `" ++ path ++ "` (`" ++ v ++ "`) is longer than the maximum allowed length ("
    ++ toString n ++ ")."

/-- Mongoose's default enum violation message for the `status` path. -/
def enumMsg (v : String) : String :=
  "`" ++ v ++ "` is not a valid enum value for path `status`."

/-- `maxLength: 100` check on `role`. -/
def roleLenErrors (r : String) : List String :=
  if 100 < r.length then [maxLengthMsg "role" r 100] else []

/-- `maxLength: 50` check on `company`. -/
def companyLenErrors (c : String) : List String :=
  if 50 < c.length then [maxLengthMsg "company" c 50] else []

/-- `enum: ['interview', 'pending', 'declined']` check on `status`. -/
def statusEnumErrors (v : String) : List String :=
  if statusEnumValues.contains v then [] else [enumMsg v]

/-- Full-document validation run by `Job.create` (`save`): every `required`
path must be present, every present path must satisfy its validators; an
absent `status` takes the default `'pending'` and is valid.  Returns the
field-level messages in schema path order. -/
def validateCreate (b : JobBody) : List String :=
  (match b.role with
   | none => [roleRequiredMsg]
   | some r => roleLenErrors r) ++
  (match b.company with
   | none => [companyRequiredMsg]
   | some c => companyLenErrors c) ++
  (match b.status with
   | none => []
   | some v => statusEnumErrors v) ++
  (match b.createdBy with
   | none => [createdByRequiredMsg]
   | some _ => [])

/-- Update validation run by `findOneAndUpdate` with `runValidators: true`:
Mongoose update validators run the validators of exactly the paths present
in the update document. -/
def validateUpdate (b : JobBody) : List String :=
  (match b.role with
   | none => []
   | some r => roleLenErrors r) ++
  (match b.company with
   | none => []
   | some c => companyLenErrors c) ++
  (match b.status with
   | none => []
   | some v => statusEnumErrors v)

/-- A Mongoose `ValidationError` as surfaced to the error normalizer:
`name` is `"ValidationError"` and `errors` holds one message per failing
path.  (`message` summarizes the same messages; the normalizer never reads
it on this branch since the `name` check overwrites `msg`.) -/
def validationError (modelName : String) (msgs : List String) : JSError :=
  { name := some "ValidationError",
    message := some (modelName ++ " validation failed: " ++ String.intercalate ", " msgs),
    errors := msgs }

/-! ## The jobs collection -/

/-- `Job.findOne({ _id: jobId, createdBy: userId })`: first document
matching both filter fields. -/
def findOne (jobs : List Job) (jobId userId : Nat) : Option Job :=
  jobs.find? (fun j => j._id == jobId && j.createdBy == userId)

/-- Replace the first document matching `{ _id: jobId, createdBy: userId }`
(the write half of `findOneAndUpdate`). -/
def replaceFirst : List Job → Nat → Nat → Job → List Job
  | [], _, _, _ => []
  | x :: xs, jobId, userId, newJob =>
    if x._id == jobId && x.createdBy == userId then newJob :: xs
    else x :: replaceFirst xs jobId userId newJob

/-- Remove the first document matching `{ _id: jobId, createdBy: userId }`
(the write half of `findOneAndDelete`). -/
def removeFirst : List Job → Nat → Nat → List Job
  | [], _, _ => []
  | x :: xs, jobId, userId =>
    if x._id == jobId && x.createdBy == userId then xs
    else x :: removeFirst xs jobId userId

/-- Ascending order on creation time: the `.sort('createdAt')` key. -/
def createdAtLe (a b : Job) : Prop := a.createdAt ≤ b.createdAt

instance : DecidableRel createdAtLe := fun a b => Nat.decLe a.createdAt b.createdAt

instance : IsTotal Job createdAtLe := ⟨fun a b => Nat.le_total a.createdAt b.createdAt⟩

instance : IsTrans Job createdAtLe := ⟨fun _ _ _ h h2 => Nat.le_trans h h2⟩

/-- `Job.find({ createdBy: userId }).sort('createdAt')`: the documents whose
`createdBy` matches, in ascending `createdAt` order. -/
def sortedFind (jobs : List Job) (userId : Nat) : List Job :=
  List.insertionSort createdAtLe (jobs.filter (fun j => j.createdBy == userId))

/-! ## Controllers (src/controllers/jobs.js) -/

/-- The JSON success bodies the five controllers emit. -/
inductive ResBody where
  | jobsList (jobs : List Job) (numOfJobs : Nat)
  | jobDoc (job : Job)
  | updatedDoc (updatedJob : Job)
  | emptyBody
deriving DecidableEq, Repr

/-- The message of the `NotFoundError` thrown by getJob/updateJob/deleteJob:
it depends only on the requested id. -/
def noJobMsg (jobId : Nat) : String :=
  "No job with id " ++ toString jobId ++ " was found"

/-- `getAllJobs`: owner-scoped find, sort, respond 200 with the list and its
length (`numOfJobs`).  Never throws. -/
def getAllJobs (jobs : List Job) (userId : Nat) : Nat × ResBody :=
  let mine := sortedFind jobs userId
  (StatusCodes.OK, ResBody.jobsList mine mine.length)

/-- `getJob` (version 2): owner-scoped `findOne`; throw `NotFoundError` when
no match, else 200 with the document. -/
def getJob (jobs : List Job) (jobId userId : Nat) : Except JSError (Nat × ResBody) :=
  match findOne jobs jobId userId with
  | none => Except.error (NotFoundError (noJobMsg jobId))
  | some job => Except.ok (StatusCodes.OK, ResBody.jobDoc job)

/-- `createJob`: `req.body.createdBy = req.user.userId` then
`Job.create(req.body)`.  `freshId` and `now` stand for the store-assigned
`_id` and `createdAt`.  Returns the collection after the call together with
the thrown error or the 200 response. -/
def createJob (jobs : List Job) (body : JobBody) (userId freshId now : Nat) :
    List Job × Except JSError (Nat × ResBody) :=
  let body2 : JobBody := { body with createdBy := some userId }
  match validateCreate body2 with
  | [] =>
    let job : Job :=
      { _id := freshId,
        role := body2.role.getD "",
        company := body2.company.getD "",
        status := body2.status.getD "pending",
        createdBy := body2.createdBy.getD 0,
        createdAt := now }
    (jobs ++ [job], Except.ok (StatusCodes.OK, ResBody.jobDoc job))
  | msgs => (jobs, Except.error (validationError "Job" msgs))

/-- `$set` of the update document onto the matched document: paths present
in the body overwrite, absent paths are untouched. -/
def applyUpdate (j : Job) (b : JobBody) : Job :=
  { j with
    role := b.role.getD j.role,
    company := b.company.getD j.company,
    status := b.status.getD j.status,
    createdBy := b.createdBy.getD j.createdBy }

/-- `Job.findOneAndUpdate({_id, createdBy}, newData, {runValidators: true,
new: true})`: update validators run first and reject without touching the
store; otherwise the first matching document is replaced by the merged one
and (`new: true`) the merged document is returned, or `none` if no match. -/
def findOneAndUpdate (jobs : List Job) (jobId userId : Nat) (newData : JobBody) :
    Except JSError (List Job × Option Job) :=
  match validateUpdate newData with
  | [] =>
    match findOne jobs jobId userId with
    | none => Except.ok (jobs, none)
    | some j =>
      let merged := applyUpdate j newData
      Except.ok (replaceFirst jobs jobId userId merged, some merged)
  | msgs => Except.error (validationError "Job" msgs)

/-- `updateJob`: `findOneAndUpdate`, throw `NotFoundError` when no match,
else 200 with the updated document. -/
def updateJob (jobs : List Job) (jobId userId : Nat) (newData : JobBody) :
    List Job × Except JSError (Nat × ResBody) :=
  match findOneAndUpdate jobs jobId userId newData with
  | Except.error e => (jobs, Except.error e)
  | Except.ok (jobs2, none) => (jobs2, Except.error (NotFoundError (noJobMsg jobId)))
  | Except.ok (jobs2, some j) => (jobs2, Except.ok (StatusCodes.OK, ResBody.updatedDoc j))

/-- `deleteJob`: `findOneAndDelete`, throw `NotFoundError` when no match,
else 200 with an empty body (`res.status(200).send()`). -/
def deleteJob (jobs : List Job) (jobId userId : Nat) :
    List Job × Except JSError (Nat × ResBody) :=
  match findOne jobs jobId userId with
  | none => (jobs, Except.error (NotFoundError (noJobMsg jobId)))
  | some _ => (removeFirst jobs jobId userId, Except.ok (StatusCodes.OK, ResBody.emptyBody))

/-! ## Helper lemmas -/

/-- The normalizer's response to any Mongoose `ValidationError`: 400 and the
fixed prefix followed by the field messages joined by `", "`. -/
theorem errorHandler_on_validationError (modelName : String) (msgs : List String) :
    errorHandlerMiddleware (validationError modelName msgs)
      = ⟨StatusCodes.BAD_REQUEST,
          "Validation failed for user creation due to the following reasons: "
            ++ String.intercalate ", " msgs⟩ := by
  simp [errorHandlerMiddleware, validationError, validationMsg]

/-- If every document carrying the requested id belongs to `a`, then the
owner-scoped `findOne` on behalf of `b ≠ a` misses. -/
theorem findOne_eq_none_of_other_owner (jobs : List Job) (jobId a b : Nat)
    (hab : b ≠ a) (hown : ∀ j ∈ jobs, j._id = jobId → j.createdBy = a) :
    findOne jobs jobId b = none := by
  unfold findOne
  rw [List.find?_eq_none]
  intro x hx
  simp only [Bool.and_eq_true, beq_iff_eq]
  rintro ⟨h1, h2⟩
  exact hab (h2.symm.trans (hown x hx h1))

/-! ## Claim theorems -/

/-- C10: the classifier rules are applied with a fixed overriding
precedence: cast overrides validation, which overrides duplicate-key, which
overrides the domain-error/default rule — the final response is that of the
last matching rule in source order. -/
theorem errorHandler_precedence (err : JSError) :
    errorHandlerMiddleware err =
      (if err.name = some "CastError" then ⟨StatusCodes.NOT_FOUND, castMsg err⟩
       else if err.name = some "ValidationError" then
         ⟨StatusCodes.BAD_REQUEST, validationMsg err⟩
       else if err.code = some 11000 then ⟨StatusCodes.BAD_REQUEST, dupMsg err⟩
       else ⟨defaultStatusCode err, defaultMsg err⟩ : ErrorResponse) := by
  by_cases h1 : err.name = some "CastError" <;>
    by_cases h2 : err.name = some "ValidationError" <;>
      by_cases h3 : err.code = some 11000 <;>
        simp [errorHandlerMiddleware, h1, h2, h3]

/-- C4 counterexample: an unclassified internal error (no duplicate-key
code, name neither ValidationError nor CastError, no explicit statusCode)
whose own `message` is a non-empty internal detail is answered with 500 and
that internal detail — not the fixed generic message. -/
theorem errorHandler_default_leaks_detail :
    errorHandlerMiddleware
        { message := some "connect ECONNREFUSED 127.0.0.1:27017", name := some "Error" }
      = ⟨500, "connect ECONNREFUSED 127.0.0.1:27017"⟩ ∧
    "connect ECONNREFUSED 127.0.0.1:27017" ≠ genericMsg := by
  exact ⟨rfl, by decide⟩

/-- C4 (amended): an error matching none of the classifier shapes is
answered with status 500; the message is the error's own `message` when that
is present and non-empty, and only otherwise the fixed generic message. -/
theorem errorHandler_default_branch (err : JSError)
    (hdup : ¬ err.code = some 11000)
    (hval : ¬ err.name = some "ValidationError")
    (hcast : ¬ err.name = some "CastError")
    (hstatus : err.statusCode = none) :
    errorHandlerMiddleware err = ⟨StatusCodes.INTERNAL_SERVER_ERROR, defaultMsg err⟩ ∧
    (err.message = none →
      errorHandlerMiddleware err = ⟨StatusCodes.INTERNAL_SERVER_ERROR, genericMsg⟩) ∧
    (∀ m, err.message = some m → ¬ m = "" →
      errorHandlerMiddleware err = ⟨StatusCodes.INTERNAL_SERVER_ERROR, m⟩) := by
  refine ⟨?_, ?_, ?_⟩
  · simp [errorHandlerMiddleware, defaultStatusCode, hdup, hval, hcast, hstatus]
  · intro hm
    simp [errorHandlerMiddleware, defaultStatusCode, defaultMsg, hdup, hval, hcast, hstatus, hm]
  · intro m hm hne
    simp [errorHandlerMiddleware, defaultStatusCode, defaultMsg, hdup, hval, hcast, hstatus,
      hm, hne]

/-- Witness for C4 (amended) at a concrete message-less error. -/
theorem errorHandler_default_branch_witness :
    errorHandlerMiddleware { name := some "Error" }
      = ⟨StatusCodes.INTERNAL_SERVER_ERROR, genericMsg⟩ :=
  (errorHandler_default_branch { name := some "Error" } (by decide) (by decide) (by decide)
    rfl).2.1 rfl

/-- C5: every schema-validation failure is answered with 400 and the
comma-separated concatenation of all field-level messages (after the fixed
prefix); a create with both `role` and `company` absent raises exactly the
two required-field messages and is answered with a 400 message naming both. -/
theorem errorHandler_validation (err : JSError) (jobs : List Job)
    (userId freshId now : Nat) (h : err.name = some "ValidationError") :
    errorHandlerMiddleware err
      = ⟨StatusCodes.BAD_REQUEST,
          "Validation failed for user creation due to the following reasons: "
            ++ String.intercalate ", " err.errors⟩ ∧
    createJob jobs {} userId freshId now
      = (jobs, Except.error (validationError "Job" [roleRequiredMsg, companyRequiredMsg])) ∧
    errorHandlerMiddleware (validationError "Job" [roleRequiredMsg, companyRequiredMsg])
      = ⟨StatusCodes.BAD_REQUEST,
          "Validation failed for user creation due to the following reasons: Please provide a role, Please enter a company name"⟩ := by
  refine ⟨?_, rfl, ?_⟩
  · simp [errorHandlerMiddleware, validationMsg, h]
  · exact (errorHandler_on_validationError "Job" [roleRequiredMsg, companyRequiredMsg]).trans
      (by decide)

/-- Witness for C5 at a concrete ValidationError. -/
theorem errorHandler_validation_witness :
    errorHandlerMiddleware (validationError "User" ["Please provide an email"])
      = ⟨StatusCodes.BAD_REQUEST,
          "Validation failed for user creation due to the following reasons: "
            ++ String.intercalate ", " ["Please provide an email"]⟩ :=
  (errorHandler_validation (validationError "User" ["Please provide an email"]) [] 0 0 0
    rfl).1

/-- C6: every type-cast failure is answered with 404 — never 500 — and a
message naming the unresolvable value. -/
theorem errorHandler_cast (err : JSError) (h : err.name = some "CastError") :
    errorHandlerMiddleware err
      = ⟨StatusCodes.NOT_FOUND, "No job found with an id of " ++ err.value⟩ ∧
    StatusCodes.NOT_FOUND ≠ StatusCodes.INTERNAL_SERVER_ERROR := by
  refine ⟨?_, by decide⟩
  simp [errorHandlerMiddleware, castMsg, h]

/-- Witness for C6 at a concrete malformed-id CastError. -/
theorem errorHandler_cast_witness :
    errorHandlerMiddleware { name := some "CastError", value := "67d4cc1feb66701a1bb454bee" }
      = ⟨StatusCodes.NOT_FOUND, "No job found with an id of 67d4cc1feb66701a1bb454bee" ⟩ ∧
    StatusCodes.NOT_FOUND ≠ StatusCodes.INTERNAL_SERVER_ERROR :=
  errorHandler_cast { name := some "CastError", value := "67d4cc1feb66701a1bb454bee" } rfl

/-- C7 counterexample: an error that carries the duplicate-key indicator
`code = 11000` but whose `name` is `"CastError"` is answered by the cast
rule (404), not the duplicate-key rule (400). -/
theorem errorHandler_dup_overridden :
    errorHandlerMiddleware
        { code := some 11000, keyValue := ["email"], name := some "CastError", value := "abc" }
      = ⟨StatusCodes.NOT_FOUND, "No job found with an id of abc"⟩ ∧
    StatusCodes.NOT_FOUND ≠ StatusCodes.BAD_REQUEST := by
  exact ⟨rfl, by decide⟩

/-- C7 (amended): every error carrying the duplicate-key indicator whose
`name` is neither `"ValidationError"` nor `"CastError"` is answered with 400
and a message naming the offending field(s) of the key-conflict payload. -/
theorem errorHandler_dup (err : JSError) (h : err.code = some 11000)
    (hval : ¬ err.name = some "ValidationError") (hcast : ¬ err.name = some "CastError") :
    errorHandlerMiddleware err
      = ⟨StatusCodes.BAD_REQUEST,
          "Duplicate value entered for the " ++ String.intercalate "," err.keyValue
            ++ " field. Please choose another value"⟩ := by
  simp [errorHandlerMiddleware, dupMsg, h, hval, hcast]

/-- Witness for C7 (amended) at a concrete duplicate-email error. -/
theorem errorHandler_dup_witness :
    errorHandlerMiddleware { code := some 11000, keyValue := ["email"] }
      = ⟨StatusCodes.BAD_REQUEST,
          "Duplicate value entered for the " ++ String.intercalate "," ["email"]
            ++ " field. Please choose another value"⟩ :=
  errorHandler_dup { code := some 11000, keyValue := ["email"] } rfl (by decide) (by decide)

/-- C8: every explicitly-raised domain error (NotFound 404, BadRequest 400,
Unauthenticated 401) is answered with its own status code and message
verbatim, untouched by the duplicate-key/validation/cast rules. -/
theorem errorHandler_domain_verbatim (m : String) (hm : ¬ m = "") :
    errorHandlerMiddleware (NotFoundError m) = ⟨StatusCodes.NOT_FOUND, m⟩ ∧
    errorHandlerMiddleware (BadRequestError m) = ⟨StatusCodes.BAD_REQUEST, m⟩ ∧
    errorHandlerMiddleware (UnauthenticatedError m) = ⟨401, m⟩ := by
  refine ⟨?_, ?_, ?_⟩ <;>
    simp [errorHandlerMiddleware, NotFoundError, BadRequestError, UnauthenticatedError,
      defaultStatusCode, defaultMsg, StatusCodes.NOT_FOUND, StatusCodes.BAD_REQUEST,
      StatusCodes.INTERNAL_SERVER_ERROR, hm]

/-- Witness for C8 at the message of a concrete NotFound raise. -/
theorem errorHandler_domain_verbatim_witness :
    errorHandlerMiddleware (NotFoundError "No job with id 1 was found")
      = ⟨StatusCodes.NOT_FOUND, "No job with id 1 was found"⟩ :=
  (errorHandler_domain_verbatim "No job with id 1 was found" (by decide)).1

/-- C1: against a job id wholly owned by user `a`, any distinct
authenticated user `b` gets the same `NotFoundError` from get-one, update
(with any payload passing update validation), and delete as for an id
matching no job at all — none of `a`'s data appears in the result, and the
store is untouched. -/
theorem crossUser_notFound (jobs : List Job) (jobId a b : Nat) (newData : JobBody)
    (hab : b ≠ a)
    (hown : ∀ j ∈ jobs, j._id = jobId → j.createdBy = a)
    (hvalid : validateUpdate newData = []) :
    getJob jobs jobId b = Except.error (NotFoundError (noJobMsg jobId)) ∧
    updateJob jobs jobId b newData = (jobs, Except.error (NotFoundError (noJobMsg jobId))) ∧
    deleteJob jobs jobId b = (jobs, Except.error (NotFoundError (noJobMsg jobId))) ∧
    getJob jobs jobId b = getJob [] jobId b ∧
    (updateJob jobs jobId b newData).2 = (updateJob [] jobId b newData).2 ∧
    (deleteJob jobs jobId b).2 = (deleteJob [] jobId b).2 := by
  have hnone : findOne jobs jobId b = none :=
    findOne_eq_none_of_other_owner jobs jobId a b hab hown
  have hempty : findOne [] jobId b = none := rfl
  refine ⟨?_, ?_, ?_, ?_, ?_, ?_⟩ <;>
    simp [getJob, updateJob, deleteJob, findOneAndUpdate, hnone, hempty, hvalid]

/-- Witness for C1: a job of user 7, requested by user 8. -/
theorem crossUser_notFound_witness :
    getJob [{ _id := 1, role := "Engineer", company := "Acme", status := "pending",
              createdBy := 7, createdAt := 0 }] 1 8
      = Except.error (NotFoundError (noJobMsg 1)) ∧
    deleteJob [{ _id := 1, role := "Engineer", company := "Acme", status := "pending",
                 createdBy := 7, createdAt := 0 }] 1 8
      = ([{ _id := 1, role := "Engineer", company := "Acme", status := "pending",
            createdBy := 7, createdAt := 0 }],
         Except.error (NotFoundError (noJobMsg 1))) := by
  have h := crossUser_notFound
    [{ _id := 1, role := "Engineer", company := "Acme", status := "pending",
       createdBy := 7, createdAt := 0 }] 1 7 8 {}
    (by decide) (by decide) (by decide)
  exact ⟨h.1, h.2.2.1⟩

/-- C2: the owner stamped on a created job is the authenticated caller —
the whole call is invariant under any client-supplied `createdBy`, and on
success the persisted document's `createdBy` is the caller's id. -/
theorem createJob_owner_from_caller (jobs : List Job) (body : JobBody)
    (userId freshId now : Nat) :
    (∀ v : Option Nat,
      createJob jobs body userId freshId now
        = createJob jobs { body with createdBy := v } userId freshId now) ∧
    (∀ (jobs2 : List Job) (job : Job),
      createJob jobs body userId freshId now
          = (jobs2, Except.ok (StatusCodes.OK, ResBody.jobDoc job)) →
      job.createdBy = userId ∧ job ∈ jobs2) := by
  constructor
  · intro v
    cases body
    rfl
  · intro jobs2 job h
    simp only [createJob] at h
    rcases hv : validateCreate { body with createdBy := some userId } with _ | ⟨m, ms⟩ <;>
      rw [hv] at h
    · simp only [Prod.mk.injEq, Except.ok.injEq, ResBody.jobDoc.injEq, true_and] at h
      obtain ⟨h2, h1⟩ := h
      subst h1
      subst h2
      exact ⟨by simp, List.mem_append_right jobs (List.mem_singleton.mpr rfl)⟩
    · simp at h

/-- Witness for C2: a concrete create whose payload tries to set owner 99
persists owner 7. -/
theorem createJob_owner_from_caller_witness :
    (Job.mk 5 "Engineer" "Acme" "pending" 7 3).createdBy = 7 ∧
    Job.mk 5 "Engineer" "Acme" "pending" 7 3 ∈ [Job.mk 5 "Engineer" "Acme" "pending" 7 3] :=
  (createJob_owner_from_caller []
      { role := some "Engineer", company := some "Acme", createdBy := some 99 } 7 5 3).2
    [Job.mk 5 "Engineer" "Acme" "pending" 7 3]
    (Job.mk 5 "Engineer" "Acme" "pending" 7 3)
    rfl

/-- C3: the list operation always answers 200 with the caller's jobs and
their count; the returned list is a permutation of the owner-filtered
collection, sorted by creation time ascending, its members are exactly the
caller's jobs, and an empty result is the successful `(200, [], 0)`. -/
theorem getAllJobs_spec (jobs : List Job) (userId : Nat) :
    getAllJobs jobs userId
      = (StatusCodes.OK,
         ResBody.jobsList (sortedFind jobs userId) (sortedFind jobs userId).length) ∧
    (sortedFind jobs userId).Perm (jobs.filter (fun j => j.createdBy == userId)) ∧
    List.Sorted createdAtLe (sortedFind jobs userId) ∧
    (∀ j, j ∈ sortedFind jobs userId ↔ j ∈ jobs ∧ j.createdBy = userId) ∧
    ((∀ j ∈ jobs, j.createdBy ≠ userId) →
      getAllJobs jobs userId = (StatusCodes.OK, ResBody.jobsList [] 0)) := by
  refine ⟨rfl, List.perm_insertionSort _ _, List.sorted_insertionSort _ _, ?_, ?_⟩
  · intro j
    simp [sortedFind, List.mem_filter]
  · intro h
    have hfil : jobs.filter (fun j => j.createdBy == userId) = [] := by
      rw [List.filter_eq_nil_iff]
      intro j hj
      simpa using h j hj
    unfold getAllJobs sortedFind
    rw [hfil]
    rfl

/-- Witness for C3 on a two-owner collection with out-of-order timestamps. -/
theorem getAllJobs_spec_witness :
    getAllJobs
        [{ _id := 1, role := "A", company := "X", status := "pending",
           createdBy := 7, createdAt := 5 },
         { _id := 2, role := "B", company := "Y", status := "declined",
           createdBy := 8, createdAt := 1 },
         { _id := 3, role := "C", company := "Z", status := "pending",
           createdBy := 7, createdAt := 2 }] 7
      = (StatusCodes.OK,
         ResBody.jobsList
           (sortedFind
             [{ _id := 1, role := "A", company := "X", status := "pending",
                createdBy := 7, createdAt := 5 },
              { _id := 2, role := "B", company := "Y", status := "declined",
                createdBy := 8, createdAt := 1 },
              { _id := 3, role := "C", company := "Z", status := "pending",
                createdBy := 7, createdAt := 2 }] 7)
           (sortedFind
             [{ _id := 1, role := "A", company := "X", status := "pending",
                createdBy := 7, createdAt := 5 },
              { _id := 2, role := "B", company := "Y", status := "declined",
                createdBy := 8, createdAt := 1 },
              { _id := 3, role := "C", company := "Z", status := "pending",
                createdBy := 7, createdAt := 2 }] 7).length) ∧
    List.Sorted createdAtLe
      (sortedFind
        [{ _id := 1, role := "A", company := "X", status := "pending",
           createdBy := 7, createdAt := 5 },
         { _id := 2, role := "B", company := "Y", status := "declined",
           createdBy := 8, createdAt := 1 },
         { _id := 3, role := "C", company := "Z", status := "pending",
           createdBy := 7, createdAt := 2 }] 7) := by
  have h := getAllJobs_spec
    [{ _id := 1, role := "A", company := "X", status := "pending",
       createdBy := 7, createdAt := 5 },
     { _id := 2, role := "B", company := "Y", status := "declined",
       createdBy := 8, createdAt := 1 },
     { _id := 3, role := "C", company := "Z", status := "pending",
       createdBy := 7, createdAt := 2 }] 7
  exact ⟨h.1, h.2.2.1⟩

/-- C9: for a job of the caller's own, an update whose payload carries a
status outside the enum is rejected — the thrown error normalizes to 400
and the collection is returned unchanged — while a validating update whose
payload omits status succeeds and preserves the job's prior status; update
validation runs on every update payload. -/
theorem updateJob_status_validation (jobs : List Job) (jobId userId : Nat) (j : Job)
    (hfind : findOne jobs jobId userId = some j) :
    (∀ (newData : JobBody) (v : String), newData.status = some v →
      statusEnumValues.contains v = false →
      updateJob jobs jobId userId newData
        = (jobs, Except.error (validationError "Job" (validateUpdate newData))) ∧
      (errorHandlerMiddleware (validationError "Job" (validateUpdate newData))).statusCode
        = StatusCodes.BAD_REQUEST) ∧
    (∀ newData : JobBody, newData.status = none → validateUpdate newData = [] →
      updateJob jobs jobId userId newData
        = (replaceFirst jobs jobId userId (applyUpdate j newData),
           Except.ok (StatusCodes.OK, ResBody.updatedDoc (applyUpdate j newData))) ∧
      (applyUpdate j newData).status = j.status) := by
  constructor
  · intro newData v hv hcontains
    have hne : validateUpdate newData ≠ [] := by
      intro hnil
      have hnotmem : v ∉ statusEnumValues := by simpa using hcontains
      simp [validateUpdate, statusEnumErrors, hv] at hnil
      exact hnotmem hnil.2.2
    constructor
    · rcases hval : validateUpdate newData with _ | ⟨m, ms⟩
      · exact absurd hval hne
      · simp [updateJob, findOneAndUpdate, hval]
    · rw [errorHandler_on_validationError]
  · intro newData hstatus hval
    constructor
    · simp [updateJob, findOneAndUpdate, hval, hfind]
    · simp [applyUpdate, hstatus]

/-- Witness for C9: rejecting status "rejected", preserving status on a
role-only update. -/
theorem updateJob_status_validation_witness :
    updateJob [{ _id := 1, role := "Engineer", company := "Acme", status := "interview",
                 createdBy := 7, createdAt := 0 }] 1 7 { status := some "rejected" }
      = ([{ _id := 1, role := "Engineer", company := "Acme", status := "interview",
            createdBy := 7, createdAt := 0 }],
         Except.error (validationError "Job" (validateUpdate { status := some "rejected" }))) ∧
    (applyUpdate
        { _id := 1, role := "Engineer", company := "Acme", status := "interview",
          createdBy := 7, createdAt := 0 } { role := some "Developer" }).status
      = "interview" := by
  have h := updateJob_status_validation
    [{ _id := 1, role := "Engineer", company := "Acme", status := "interview",
       createdBy := 7, createdAt := 0 }] 1 7
    { _id := 1, role := "Engineer", company := "Acme", status := "interview",
      createdBy := 7, createdAt := 0 } rfl
  exact ⟨(h.1 { status := some "rejected" } "rejected" rfl (by decide)).1,
         (h.2 { role := some "Developer" } rfl (by decide)).2⟩

end JobsAPI
